import Mathlib

/-!
Verification development for the core pipeline of `src/email_finder.py`
(class `EmailFinder`).

The embedding is a shallow one: every network interaction (DNS-over-HTTPS
queries, Selenium-driven web searches, SMTP round trips) is modelled by an
explicit environment value recording what the outside world answered, and
each Python method becomes a Lean function of (environment, arguments).
Python exceptions that the source can actually raise inside the modelled
fragment (only the `IndexError` from `first_name[0]`) are modelled with
`Option`; exceptions the source catches locally are folded into the
environment outcome of the corresponding step.

Python-specific behaviour that the model reproduces:
  * `str.lower()` / `str.strip()` / `str.split()` / `str.split(sep)` /
    `str.rstrip('.')` are modelled with the corresponding operations on
    Lean strings (ASCII-faithful);
  * dictionary truthiness: a dict is falsy iff it is empty; a string is
    falsy iff empty; a list is falsy iff empty;
  * f-string interpolation of a list value produces the Python `repr`
    of the list (single-quoted elements, comma-space separated);
  * `list.sort(key=...)` is a stable sort; for a key whose range is
    `{0, 1, 2}` the stable sort of a list is extensionally the
    concatenation of the key-0 entries, the key-1 entries and the
    key-2 entries, each in original order, which is how it is modelled.
-/

namespace EmailFinder

/-- Python value that is either a string or a list of strings.
`get_company_domain` (src/email_finder.py:322-439) returns a domain
string, an email-format-name string, or a list of format names, and
`profile_info['company_domain']` / `find_email_format`'s argument can
therefore hold any of these. -/
inductive StrOrList where
  | str (s : String)
  | list (l : List String)
deriving DecidableEq

/-- Python truthiness of a `StrOrList`: a string is truthy iff non-empty,
a list is truthy iff non-empty. -/
def pyTruthy : StrOrList → Bool
  | .str s => s != ""
  | .list l => !l.isEmpty

/-- Python `str()` of a `StrOrList`, as used by f-string interpolation:
a string interpolates to itself, a list to its `repr` (elements
single-quoted, separated by a comma and a space, inside brackets). -/
def pyStr : StrOrList → String
  | .str s => s
  | .list l => "[" ++ String.intercalate ", " (l.map (fun s => "\x27" ++ s ++ "\x27")) ++ "]"

/-- Python `str.lower()` (ASCII-faithful): lowercase every character. -/
def pyLower (s : String) : String :=
  String.mk (s.data.map Char.toLower)

/-- Python `str.strip()`: drop leading and trailing whitespace. -/
def pyStrip (s : String) : String :=
  String.mk (((s.data.dropWhile Char.isWhitespace).reverse.dropWhile Char.isWhitespace).reverse)

/-- Python `str.replace(' ', '')`: remove every space character. -/
def pyRemoveSpaces (s : String) : String :=
  String.mk (s.data.filter (fun c => !(c == ' ')))

/-- Accumulator pass behind Python `str.split()` (no argument):
`acc` holds the current word reversed; whitespace closes a word, empty
words are dropped. -/
def wordsAux : List Char → List Char → List String
  | [], acc => if acc.isEmpty then [] else [String.mk acc.reverse]
  | c :: rest, acc =>
    if c.isWhitespace then
      if acc.isEmpty then wordsAux rest []
      else String.mk acc.reverse :: wordsAux rest []
    else wordsAux rest (c :: acc)

/-- Python `str.split()` with no argument: split on whitespace runs,
dropping empty pieces. -/
def pySplitWs (s : String) : List String :=
  wordsAux s.data []

/-- Accumulator pass behind Python `str.split(sep)` for a one-character
separator: every occurrence splits, empty pieces are kept. -/
def splitCharAux (sep : Char) : List Char → List Char → List String
  | [], acc => [String.mk acc.reverse]
  | c :: rest, acc =>
    if c == sep then String.mk acc.reverse :: splitCharAux sep rest []
    else splitCharAux sep rest (c :: acc)

/-- Python `str.split(sep)` for a one-character separator. -/
def pySplitChar (sep : Char) (s : String) : List String :=
  splitCharAux sep s.data []

/-- Python `s[0]` on a string: the one-character prefix, or an
`IndexError` (modelled as `none`) when the string is empty. -/
def pyIdx0 (s : String) : Option String :=
  if s.length = 0 then none else some (s.take 1)

/-- The hard-coded fallback list `common_formats_to_try`
(src/email_finder.py:418-424 and 538-544). -/
def common_formats_to_try : List String :=
  ["firstinitiallastname@", "firstname.lastname@", "firstname@",
   "firstnamelastname@", "firstname_lastname@"]

/-- `DEFAULT_CONFIG["default_email_format"]` (src/email_finder.py:50). -/
def default_email_format : String := "firstname.lastname@"

/-- Environment observed by `get_company_domain`:
`dnsA` is true iff the DNS-over-HTTPS A query for the direct guess
succeeds and its `Answer` list is non-empty; `search1` is the domain
extracted from the first Google search (netloc of a top-3 result link,
leading `www.` stripped), `none` when navigation failed, parsing failed
or no suitable link was found; `search2` is the email-format name whose
signature phrase matched a snippet of the second search, `none` when no
signature matched or the search failed. -/
structure ResolverEnv where
  dnsA : Bool
  search1 : Option String
  search2 : Option String
deriving DecidableEq

/-- Model of `EmailFinder.get_company_domain` (src/email_finder.py:322-439).
Note the source returns the format name found by the second search
(line 411), or the list `common_formats_to_try` (line 428), instead of a
domain, when the earlier steps fail; the dead code at lines 430-434 and
the outer exception handler (439, also returning a format name) are
unreachable in the modelled fragment. -/
def get_company_domain (env : ResolverEnv) (company_name : String) : StrOrList :=
  let clean_company := pyStrip (pyLower company_name)
  let domain := pyRemoveSpaces clean_company ++ ".com"
  if env.dnsA then .str domain
  else
    match env.search1 with
    | some d => .str d
    | none =>
      match env.search2 with
      | some f => .str f
      | none => .list common_formats_to_try

/-- The dictionary built by `extract_profile_info`
(src/email_finder.py:290-320), one optional field per possible key;
`none` models an absent key, so the empty dict `{}` is the value with
all fields `none`. -/
structure ProfileInfo where
  name : Option String
  first_name : Option String
  last_name : Option String
  company : Option String
  company_domain : Option StrOrList
deriving DecidableEq

/-- The empty Python dict `{}`, which `extract_profile_info` would
return if an exception escaped its body. -/
def emptyProfile : ProfileInfo :=
  { name := none, first_name := none, last_name := none,
    company := none, company_domain := none }

/-- Python truthiness of the profile dict: falsy iff empty. -/
def isEmptyProfile (p : ProfileInfo) : Bool :=
  p.name.isNone && p.first_name.isNone && p.last_name.isNone &&
  p.company.isNone && p.company_domain.isNone

/-- Model of `EmailFinder.extract_profile_info` (src/email_finder.py:290-320).
Every operation in its `try` block is total in the modelled fragment
(`get_company_domain` handles its own failures internally), so the
exception branch returning `{}` is never taken. -/
def extract_profile_info (env : ResolverEnv) (first_name last_name company : String) :
    ProfileInfo :=
  { name := some (first_name ++ " " ++ last_name)
    first_name := some first_name
    last_name := some last_name
    company := some company
    company_domain := some (get_company_domain env company) }

/-- Environment observed by `find_email_format`: `search1` (resp.
`search2`) is the format name whose signature phrase matched a snippet
of the first (resp. second) Google search, `none` when nothing matched
or the search failed. -/
structure FmtEnv where
  search1 : Option String
  search2 : Option String
deriving DecidableEq

/-- Model of `EmailFinder.find_email_format` (src/email_finder.py:441-559).
When `company_domain` is a list (which happens when `get_company_domain`
fell back to `common_formats_to_try`), `company_domain.split('.')` at
line 454 raises `AttributeError`, the outer handler at 556-559 catches it
and returns `config["default_email_format"]`.  When it is a string, the
first matching signature of either search wins, and with no match the
function returns the list `common_formats_to_try` (line 548). -/
def find_email_format (env : FmtEnv) (company_domain : StrOrList) : StrOrList :=
  match company_domain with
  | .list _ => .str default_email_format
  | .str _ =>
    match env.search1 with
    | some f => .str f
    | none =>
      match env.search2 with
      | some f => .str f
      | none => .list common_formats_to_try

/-- The six "common patterns" block of `generate_email_patterns`
(src/email_finder.py:636-643 and 647-654), used when the single inferred
format is unrecognised or falsy; `first_name[0]` may raise on an empty
first name. -/
def commonCompanyPatterns (first_name last_name dStr : String) : Option (List String) := do
  let i ← pyIdx0 first_name
  pure [i ++ last_name ++ "@" ++ dStr,
        first_name ++ "@" ++ dStr,
        first_name ++ "." ++ last_name ++ "@" ++ dStr,
        first_name ++ "_" ++ last_name ++ "@" ++ dStr,
        first_name ++ last_name ++ "@" ++ dStr,
        i ++ "." ++ last_name ++ "@" ++ dStr]

/-- One iteration of the multi-format loop of `generate_email_patterns`
(src/email_finder.py:599-615): the patterns appended for one
`format_type`, an unrecognised entry contributing nothing. -/
def formatCell (first_name last_name dStr fmt : String) : Option (List String) :=
  if fmt = "firstname@" then some [first_name ++ "@" ++ dStr]
  else if fmt = "firstname.lastname@" then
    some [first_name ++ "." ++ last_name ++ "@" ++ dStr]
  else if fmt = "firstinitial.lastname@" || fmt = "f.lastname@" then
    (pyIdx0 first_name).map (fun i => [i ++ "." ++ last_name ++ "@" ++ dStr])
  else if fmt = "firstnamelastname@" then
    some [first_name ++ last_name ++ "@" ++ dStr]
  else if fmt = "firstname_lastname@" then
    some [first_name ++ "_" ++ last_name ++ "@" ++ dStr]
  else if fmt = "firstinitiallastname@" then
    (pyIdx0 first_name).map (fun i => [i ++ last_name ++ "@" ++ dStr])
  else if fmt = "lastname.firstname@" then
    some [last_name ++ "." ++ first_name ++ "@" ++ dStr]
  else if fmt = "lastnameonly@" then some [last_name ++ "@" ++ dStr]
  else some []

/-- The multi-format loop of `generate_email_patterns`
(src/email_finder.py:598-615), in list order. -/
def formatsLoop (first_name last_name dStr : String) : List String → Option (List String)
  | [] => some []
  | fmt :: rest => do
    let head ← formatCell first_name last_name dStr fmt
    let tail ← formatsLoop first_name last_name dStr rest
    pure (head ++ tail)

/-- The single-format branch of `generate_email_patterns`
(src/email_finder.py:617-644), entered when `find_email_format` returned
a truthy string; an unrecognised format falls to the six common
patterns. -/
def singleFormatPatterns (first_name last_name dStr fmt : String) : Option (List String) :=
  if fmt = "firstname@" then some [first_name ++ "@" ++ dStr]
  else if fmt = "firstname.lastname@" then
    some [first_name ++ "." ++ last_name ++ "@" ++ dStr]
  else if fmt = "firstinitial.lastname@" || fmt = "f.lastname@" then
    (pyIdx0 first_name).map (fun i => [i ++ "." ++ last_name ++ "@" ++ dStr])
  else if fmt = "firstnamelastname@" then
    some [first_name ++ last_name ++ "@" ++ dStr]
  else if fmt = "firstname_lastname@" then
    some [first_name ++ "_" ++ last_name ++ "@" ++ dStr]
  else if fmt = "firstinitiallastname@" then
    (pyIdx0 first_name).map (fun i => [i ++ last_name ++ "@" ++ dStr])
  else if fmt = "lastname.firstname@" then
    some [last_name ++ "." ++ first_name ++ "@" ++ dStr]
  else if fmt = "lastnameonly@" then some [last_name ++ "@" ++ dStr]
  else commonCompanyPatterns first_name last_name dStr

/-- The company-domain block of `generate_email_patterns`
(src/email_finder.py:591-655): nothing when the `company_domain` key is
absent or falsy, otherwise dispatch on the value `find_email_format`
returned.  The f-strings interpolate `company_domain` itself, hence
`pyStr`. -/
def companyPatterns (fenv : FmtEnv) (first_name last_name : String)
    (cdv : Option StrOrList) : Option (List String) :=
  match cdv with
  | none => some []
  | some v =>
    if !pyTruthy v then some []
    else
      match find_email_format fenv v with
      | .list fmts => formatsLoop first_name last_name (pyStr v) fmts
      | .str f =>
        if f != "" then singleFormatPatterns first_name last_name (pyStr v) f
        else commonCompanyPatterns first_name last_name (pyStr v)

/-- The extra-domains loop of `generate_email_patterns`
(src/email_finder.py:657-669): seven patterns per caller-supplied
domain, in caller order. -/
def extraPatterns (first_name last_name : String) : List String → Option (List String)
  | [] => some []
  | d :: rest => do
    let i ← pyIdx0 first_name
    let tail ← extraPatterns first_name last_name rest
    pure ([i ++ last_name ++ "@" ++ d,
           first_name ++ "@" ++ d,
           last_name ++ "@" ++ d,
           first_name ++ "." ++ last_name ++ "@" ++ d,
           first_name ++ "_" ++ last_name ++ "@" ++ d,
           first_name ++ last_name ++ "@" ++ d,
           i ++ "." ++ last_name ++ "@" ++ d] ++ tail)

/-- Body of `generate_email_patterns` after the name components have
been resolved: company block first, then the extra-domain sweeps. -/
def genBody (fenv : FmtEnv) (first_name last_name : String)
    (cdv : Option StrOrList) (domains : List String) : Option (List String) := do
  let c ← companyPatterns fenv first_name last_name cdv
  let e ← extraPatterns first_name last_name domains
  pure (c ++ e)

/-- Model of `EmailFinder.generate_email_patterns`
(src/email_finder.py:561-671).  A falsy `name` yields `[]`; an empty
lowered first or last component triggers the fallback split of the full
name (line 578-585), which yields `[]` when the name has fewer than two
whitespace-separated parts.  `none` models a Python exception escaping
the call (the only candidate being the `IndexError` of
`first_name[0]`). -/
def generate_email_patterns (fenv : FmtEnv) (p : ProfileInfo)
    (domains : List String) : Option (List String) :=
  if p.name.getD "" = "" then some []
  else if pyLower (p.first_name.getD "") = "" || pyLower (p.last_name.getD "") = "" then
    if (pySplitWs (p.name.getD "")).length < 2 then some []
    else genBody fenv (pyLower ((pySplitWs (p.name.getD "")).headD ""))
      (pyLower ((pySplitWs (p.name.getD "")).getLastD "")) p.company_domain domains
  else genBody fenv (pyLower (p.first_name.getD "")) (pyLower (p.last_name.getD ""))
    p.company_domain domains

/-- Helper for the syntactic check: a dot somewhere in the list that is
neither the first nor the last element (so at least one character stands
before it and one after it, all inside the list). -/
def dotNotLast : List Char → Bool
  | [] => false
  | [_] => false
  | c :: rest => (c == '.') || dotNotLast rest

/-- Helper for the syntactic check on the segment after the `@`. -/
def hasInnerDot : List Char → Bool
  | [] => false
  | _ :: t => dotNotLast t

/-- Model of `re.match(r"[^@]+@[^@]+\.[^@]+", email)`
(src/email_finder.py:683): a match exists iff the maximal `@`-free
prefix is non-empty and is followed by an `@`, and the maximal `@`-free
run after that `@` contains a dot with at least one character before it
and one after it inside the run (`re.match` anchors at the start only,
so anything may follow). -/
def verifyReMatch (email : String) : Bool :=
  let cs := email.data
  let loc := cs.takeWhile (fun c => c != '@')
  !loc.isEmpty && hasInnerDot ((cs.drop (loc.length + 1)).takeWhile (fun c => c != '@'))

/-- Python `email.split('@')[1]` (src/email_finder.py:687): the piece
between the first and second `@`.  The preceding regex check guarantees
the split has at least two pieces, so the default is never used there. -/
def emailDomain (email : String) : String :=
  (pySplitChar '@' email).getD 1 ""

/-- Python `s.rstrip('.')`: drop every trailing dot. -/
def rstripDots (s : String) : String :=
  String.mk ((s.data.reverse.dropWhile (fun c => c == '.')).reverse)

/-- Outcome of the first `smtp.connect(mx_domain, 25)`
(src/email_finder.py:723-725): `ok` means connected, `caught` a
`socket.gaierror` / `socket.timeout` / `ConnectionRefusedError` (the
types named in the `except` clause, triggering the fallback connect to
the bare domain), `uncaught` any other exception type, which propagates
to the outer handler at line 773 and falls through to the final
`return True, "Medium"`. -/
inductive ConnRes where
  | ok
  | caught
  | uncaught
deriving DecidableEq

/-- Environment observed by `verify_email`: `mxAnswer1` is the `Answer`
list of the Method-2 MX query (`none` = the request or JSON parse
raised, line 693's bare `except`); `mxAnswer2` likewise for Method-3's
own MX query (each entry the `data` string of a record); `connMx` the
first connect outcome; `connDomain` whether the fallback
`smtp.connect(domain, 25)` succeeded (its handler catches every
exception); `heloOk` / `mailOk` whether `HELO` / `MAIL FROM` succeeded
(catch-all handlers); `rcpt` the numeric `RCPT TO` reply code, `none`
when that call raised.

The exception handlers themselves call `smtp.quit()` unprotected, and
after a transport error the socket is already closed, so those `quit()`
calls can raise in turn and escape to the outer handler at line 773,
which falls through to `return True, "Medium"` (line 778).  The four
unprotected `quit()` sites each get their own outcome flag (true =
returned normally): `heloQuitOk` for the `quit()` in the HELO handler
(line 736), `mailQuitOk` for the one in the MAIL FROM handler
(line 754), `rcptQuitOk` for the `quit()` that follows a successful
`RCPT TO` inside the same `try` (line 760), and `rcptExcQuitOk` for the
one in the RCPT exception handler (line 770). -/
structure VerifyEnv where
  mxAnswer1 : Option (List String)
  mxAnswer2 : Option (List String)
  connMx : ConnRes
  connDomain : Bool
  heloOk : Bool
  heloQuitOk : Bool
  mailOk : Bool
  mailQuitOk : Bool
  rcpt : Option Nat
  rcptQuitOk : Bool
  rcptExcQuitOk : Bool
deriving DecidableEq

/-- The `mx_domain` computed by Method 3 (src/email_finder.py:701-713):
from the first MX record's `data` take the word after the priority and
strip trailing dots; a parse failure inside the `try` falls to the
handler that substitutes the bare email domain, as does a failed
request; an empty `Answer` list leaves `mx_domain = None`. -/
def mxDomainOf (env : VerifyEnv) (domain : String) : Option String :=
  match env.mxAnswer2 with
  | some (r :: _) =>
    match pySplitChar ' ' r with
    | _ :: d :: _ => some (rstripDots d)
    | _ => some domain
  | some [] => none
  | none => some domain

/-- The HELO / MAIL FROM / RCPT TO portion of `verify_email`
(src/email_finder.py:732-771); the opportunistic STARTTLS block
(740-745) swallows every exception and cannot change the returned
value, so it has no footprint here.

Exception flow around the unprotected `quit()` calls: a HELO (resp.
MAIL FROM) failure reaches `return False, "HELO failed"` (resp.
`"MAIL FROM failed"`) only when the handler's `quit()` returns; if that
`quit()` raises, the exception escapes to the outer handler and the
function falls through to `return True, "Medium"`.  After a successful
`RCPT TO`, the `quit()` at line 760 sits inside the same `try`: if it
raises, the reply code is discarded and the RCPT handler runs, whose
own `quit()` (line 770) decides between `return True, "Low"` and the
outer fall-through `(True, "Medium")`; the same handler path serves an
exception from `RCPT TO` itself. -/
def smtpSession (env : VerifyEnv) : Bool × String :=
  if !env.heloOk then
    if env.heloQuitOk then (false, "HELO failed") else (true, "Medium")
  else if !env.mailOk then
    if env.mailQuitOk then (false, "MAIL FROM failed") else (true, "Medium")
  else
    match env.rcpt with
    | some c =>
      if env.rcptQuitOk then
        if c = 250 then (true, "High")
        else if c = 550 then (false, "Invalid")
        else (true, "Medium")
      else if env.rcptExcQuitOk then (true, "Low")
      else (true, "Medium")
    | none =>
      if env.rcptExcQuitOk then (true, "Low")
      else (true, "Medium")

/-- The connect-then-session portion of `verify_email`
(src/email_finder.py:718-771), including the fall-through to
`return True, "Medium"` when the first connect raises an exception type
the inner handler does not name. -/
def smtpStage (env : VerifyEnv) : Bool × String :=
  match env.connMx with
  | .ok => smtpSession env
  | .caught => if env.connDomain then smtpSession env else (false, "Connection failed")
  | .uncaught => (true, "Medium")

/-- The part of `verify_email` following a passed Method-2 MX check
(src/email_finder.py:696-778). -/
def afterMxCheck (env : VerifyEnv) (domain : String) : Bool × String :=
  match mxDomainOf env domain with
  | none => (false, "No MX domain")
  | some mxd => if mxd = "" then (false, "No MX domain") else smtpStage env

/-- Model of `EmailFinder.verify_email` (src/email_finder.py:673-778).
Returned pair is `(is_valid, confidence)` exactly as in the source. -/
def verify_email (env : VerifyEnv) (email : String) : Bool × String :=
  if !verifyReMatch email then (false, "Invalid format")
  else
    let domain := emailDomain email
    match env.mxAnswer1 with
    | some ans => if ans.isEmpty then (false, "No MX records") else afterMxCheck env domain
    | none => afterMxCheck env domain

/-- One entry of the list returned by `find_emails`
(src/email_finder.py:818-822). -/
structure EmailInfo where
  email : String
  confidence : String
  source : String
deriving DecidableEq

/-- The sort key of `find_emails` (src/email_finder.py:828):
`0 if confidence == 'High' else (1 if confidence == 'Medium' else 2)`. -/
def tierKey (c : String) : Nat :=
  if c = "High" then 0 else if c = "Medium" then 1 else 2

/-- Python's `list.sort` is stable; for the key `tierKey`, whose range
is `{0, 1, 2}`, the stable sort is extensionally the key-0 entries in
original order, then the key-1 entries, then the key-2 entries. -/
def pySortByTier (l : List EmailInfo) : List EmailInfo :=
  l.filter (fun x => tierKey x.confidence == 0) ++
  l.filter (fun x => tierKey x.confidence == 1) ++
  l.filter (fun x => tierKey x.confidence == 2)

/-- The verification loop of `find_emails` (src/email_finder.py:815-825):
probe each candidate once, keep the candidate iff `is_valid` is true.
Besides the kept entries the model also returns the trace of addresses
on which `verify_email` was consulted, in consultation order, once per
consultation. -/
def probeLoop (vEnv : String → VerifyEnv) : List String → List EmailInfo × List String
  | [] => ([], [])
  | e :: rest =>
    ((if (verify_email (vEnv e) e).1 then
        [{ email := e, confidence := (verify_email (vEnv e) e).2,
           source := "pattern_matching" }]
      else []) ++ (probeLoop vEnv rest).1,
     e :: (probeLoop vEnv rest).2)

/-- The candidate list `possible_emails` that `find_emails` builds
(src/email_finder.py:792-809) before verification. -/
def find_emails_candidates (rEnv : ResolverEnv) (fenv : FmtEnv)
    (first_name last_name company : String) (additional : Option (List String)) :
    Option (List String) :=
  let profile := extract_profile_info rEnv first_name last_name company
  if isEmptyProfile profile then some []
  else generate_email_patterns fenv profile (additional.getD [])

/-- The `verified_emails` list of `find_emails` before the final sort
(src/email_finder.py:812-825). -/
def find_emails_pre (rEnv : ResolverEnv) (fenv : FmtEnv) (vEnv : String → VerifyEnv)
    (first_name last_name company : String) (additional : Option (List String)) :
    Option (List EmailInfo) :=
  (find_emails_candidates rEnv fenv first_name last_name company additional).map
    (fun possible => (probeLoop vEnv possible).1)

/-- The trace of addresses `find_emails` hands to `verify_email`, in
order, one entry per invocation. -/
def find_emails_probed (rEnv : ResolverEnv) (fenv : FmtEnv) (vEnv : String → VerifyEnv)
    (first_name last_name company : String) (additional : Option (List String)) :
    Option (List String) :=
  (find_emails_candidates rEnv fenv first_name last_name company additional).map
    (fun possible => (probeLoop vEnv possible).2)

/-- Model of `EmailFinder.find_emails` (src/email_finder.py:780-830):
extract the profile (never empty, so the early `return []` at line 796
is unreachable), generate candidates, probe each once, keep the valid
ones and sort them by confidence with Python's stable sort.  The tqdm
progress bar, console printing and inter-request delays have no
observable effect on the returned value and are not modelled. -/
def find_emails (rEnv : ResolverEnv) (fenv : FmtEnv) (vEnv : String → VerifyEnv)
    (first_name last_name company : String) (additional : Option (List String)) :
    Option (List EmailInfo) :=
  (find_emails_pre rEnv fenv vEnv first_name last_name company additional).map pySortByTier

/-- The domain part of a candidate address, as the spec reads it:
everything after the first `@`. -/
def domainPart (s : String) : String :=
  s.drop ((s.data.takeWhile (fun c => c != '@')).length + 1)

/-! Concrete environments used to instantiate theorems. -/

/-- Resolver environment in which the direct-guess DNS check finds no A
records and both web searches yield nothing. -/
def resolverNoHit : ResolverEnv := { dnsA := false, search1 := none, search2 := none }

/-- Resolver environment in which the direct-guess DNS check succeeds. -/
def resolverDnsHit : ResolverEnv := { dnsA := true, search1 := none, search2 := none }

/-- Format-search environment in which neither search matches a signature. -/
def fmtNone : FmtEnv := { search1 := none, search2 := none }

/-- Format-search environment in which the first search matched `firstname@`. -/
def fmtFirstOnly : FmtEnv := { search1 := some "firstname@", search2 := none }

/-- Format-search environment in which the first search matched `lastnameonly@`. -/
def fmtLastOnly : FmtEnv := { search1 := some "lastnameonly@", search2 := none }

/-- Format-search environment with a first-search match and a differing
second-search match (the second is shadowed by the first). -/
def fmtFirstBoth : FmtEnv := { search1 := some "firstname@", search2 := some "lastnameonly@" }

/-- Verification environment in which every network step succeeds and the
`RCPT TO` reply is 250. -/
def venvSmtpOk : VerifyEnv :=
  { mxAnswer1 := some ["10 mail.acme.com."], mxAnswer2 := some ["10 mail.acme.com."],
    connMx := .ok, connDomain := true, heloOk := true, heloQuitOk := true,
    mailOk := true, mailQuitOk := true, rcpt := some 250, rcptQuitOk := true,
    rcptExcQuitOk := true }

/-- Like `venvSmtpOk` but the `RCPT TO` reply is 450 (an indefinite reply). -/
def venvMed : VerifyEnv := { venvSmtpOk with rcpt := some 450 }

/-- Like `venvSmtpOk` but the `RCPT TO` call raises. -/
def venvRcptExc : VerifyEnv := { venvSmtpOk with rcpt := none }

/-- Like `venvSmtpOk` but both connection attempts fail (the first with a
refused/timeout-style exception). -/
def venvConnFail : VerifyEnv := { venvSmtpOk with connMx := .caught, connDomain := false }

/-- Like `venvSmtpOk` but the Method-2 MX query succeeds with an empty
`Answer` list. -/
def venvNoMxRecords : VerifyEnv := { venvSmtpOk with mxAnswer1 := some [] }

/-- Like `venvSmtpOk` but the Method-2 MX query itself raises. -/
def venvMxLookupErr : VerifyEnv := { venvSmtpOk with mxAnswer1 := none }

/-- Per-candidate verification environments giving a mix of outcomes on
the five common-format candidates for ana lee at acme.com. -/
def vMix : String → VerifyEnv := fun e =>
  if e = "alee@acme.com" then venvRcptExc
  else if e = "ana.lee@acme.com" then venvSmtpOk
  else if e = "analee@acme.com" then venvConnFail
  else venvMed

/-! Helper lemmas. -/

/-- Lowercasing a non-empty string yields a non-empty string. -/
theorem pyLower_ne_empty {s : String} (h : s ≠ "") : pyLower s ≠ "" := by
  intro hc
  apply h
  rw [pyLower, String.ext_iff] at hc
  rw [String.ext_iff]
  simpa using hc

/-- A non-empty string has non-zero length. -/
theorem length_ne_zero {s : String} (h : s ≠ "") : s.length ≠ 0 := by
  intro hc
  apply h
  rw [String.ext_iff]
  show s.data = []
  exact List.length_eq_zero.mp hc

/-- On a non-empty string, Python `s[0]` succeeds. -/
theorem pyIdx0_of_ne_empty {s : String} (h : s ≠ "") : pyIdx0 s = some (s.take 1) := by
  unfold pyIdx0
  simp [length_ne_zero h]

/-- A closed word of the split accumulator is a non-empty string. -/
theorem mk_reverse_ne_empty {acc : List Char} (he : ¬acc.isEmpty = true) :
    String.mk acc.reverse ≠ "" := by
  intro hc
  apply he
  have hdata : acc.reverse = [] := congrArg String.data hc
  simp [List.isEmpty_iff, List.reverse_eq_nil_iff.mp hdata]

/-- Every word emitted by the accumulator pass of `str.split()` is
non-empty. -/
theorem mem_wordsAux_ne_empty {a : String} :
    ∀ (l acc : List Char), a ∈ wordsAux l acc → a ≠ "" := by
  intro l
  induction l with
  | nil =>
    intro acc h
    unfold wordsAux at h
    by_cases he : acc.isEmpty
    · rw [if_pos he] at h
      simp at h
    · rw [if_neg he] at h
      simp at h
      subst h
      exact mk_reverse_ne_empty he
  | cons c rest ih =>
    intro acc h
    unfold wordsAux at h
    by_cases hw : c.isWhitespace
    · rw [if_pos hw] at h
      by_cases he : acc.isEmpty
      · rw [if_pos he] at h
        exact ih [] h
      · rw [if_neg he] at h
        rcases List.mem_cons.mp h with h1 | h1
        · subst h1
          exact mk_reverse_ne_empty he
        · exact ih [] h1
    · rw [if_neg hw] at h
      exact ih (c :: acc) h

/-- Every piece produced by Python `str.split()` is non-empty. -/
theorem mem_pySplitWs_ne_empty {s a : String} (h : a ∈ pySplitWs s) : a ≠ "" :=
  mem_wordsAux_ne_empty s.data [] h

/-- The six-pattern common block never raises when the first name is
non-empty. -/
theorem commonCompanyPatterns_isSome {first : String} (last d : String) (h : first ≠ "") :
    (commonCompanyPatterns first last d).isSome := by
  simp [commonCompanyPatterns, pyIdx0_of_ne_empty h]

/-- One multi-format loop iteration never raises when the first name is
non-empty. -/
theorem formatCell_isSome {first : String} (last d fmt : String) (h : first ≠ "") :
    (formatCell first last d fmt).isSome := by
  unfold formatCell
  repeat' split
  all_goals simp [pyIdx0_of_ne_empty h]

/-- The multi-format loop never raises when the first name is non-empty. -/
theorem formatsLoop_isSome {first : String} (last d : String) (h : first ≠ "")
    (fmts : List String) : (formatsLoop first last d fmts).isSome := by
  induction fmts with
  | nil => rfl
  | cons f rest ih =>
    obtain ⟨hd, hhd⟩ := Option.isSome_iff_exists.mp (formatCell_isSome last d f h)
    obtain ⟨tl, htl⟩ := Option.isSome_iff_exists.mp ih
    simp [formatsLoop, hhd, htl]

/-- The single-format branch never raises when the first name is
non-empty. -/
theorem singleFormatPatterns_isSome {first : String} (last d fmt : String) (h : first ≠ "") :
    (singleFormatPatterns first last d fmt).isSome := by
  unfold singleFormatPatterns
  repeat' split
  all_goals simp [pyIdx0_of_ne_empty h, commonCompanyPatterns, Option.isSome]

/-- The company-domain block never raises when the first name is
non-empty. -/
theorem companyPatterns_isSome (fenv : FmtEnv) {first : String} (last : String)
    (cdv : Option StrOrList) (h : first ≠ "") :
    (companyPatterns fenv first last cdv).isSome := by
  cases cdv with
  | none => rfl
  | some v =>
    by_cases ht : pyTruthy v
    · cases hf : find_email_format fenv v with
      | list fmts =>
        have := formatsLoop_isSome last (pyStr v) h fmts
        simpa [companyPatterns, ht, hf] using this
      | str f =>
        by_cases h0 : f = ""
        · subst h0
          have := commonCompanyPatterns_isSome last (pyStr v) h
          simpa [companyPatterns, ht, hf] using this
        · have := singleFormatPatterns_isSome last (pyStr v) f h
          simpa [companyPatterns, ht, hf, h0] using this
    · simp [companyPatterns, ht]

/-- The extra-domains loop never raises when the first name is
non-empty. -/
theorem extraPatterns_isSome {first : String} (last : String) (h : first ≠ "")
    (domains : List String) : (extraPatterns first last domains).isSome := by
  induction domains with
  | nil => rfl
  | cons d rest ih =>
    obtain ⟨tl, htl⟩ := Option.isSome_iff_exists.mp ih
    simp [extraPatterns, pyIdx0_of_ne_empty h, htl]

/-- The pattern body never raises when the first name is non-empty. -/
theorem genBody_isSome (fenv : FmtEnv) {first : String} (last : String)
    (cdv : Option StrOrList) (domains : List String) (h : first ≠ "") :
    (genBody fenv first last cdv domains).isSome := by
  obtain ⟨c, hc⟩ := Option.isSome_iff_exists.mp (companyPatterns_isSome fenv last cdv h)
  obtain ⟨e, he⟩ := Option.isSome_iff_exists.mp (extraPatterns_isSome last h domains)
  simp [genBody, hc, he]

/-- The lowered head of a split name is non-empty when the split has at
least two parts. -/
theorem splitWs_headD_lower_ne (nm : String) (h2 : ¬(pySplitWs nm).length < 2) :
    pyLower ((pySplitWs nm).headD "") ≠ "" := by
  cases hp : pySplitWs nm with
  | nil => rw [hp] at h2; simp at h2
  | cons a rest =>
    have ha : a ∈ pySplitWs nm := by rw [hp]; exact List.mem_cons_self a rest
    simpa using pyLower_ne_empty (mem_pySplitWs_ne_empty ha)

/-! Claim theorems. -/

/-- C9 (amended): pattern generation never crashes, whatever the profile
dictionary holds — in particular on single-character or empty name
components.  When a lowered component is empty the source does not omit
the initial-based patterns: it falls back to re-splitting the full name
(returning `[]` when that name has fewer than two whitespace-separated
parts), and on every branch that reaches pattern construction the first
name is non-empty, so `first_name[0]` never raises. -/
theorem generate_email_patterns_total (fenv : FmtEnv) (p : ProfileInfo)
    (domains : List String) : (generate_email_patterns fenv p domains).isSome = true := by
  unfold generate_email_patterns
  split
  · rfl
  · split
    · split
      · rfl
      · rename_i h2
        exact genBody_isSome fenv _ p.company_domain domains (splitWs_headD_lower_ne _ h2)
    · rename_i hff
      have h1 : pyLower (p.first_name.getD "") ≠ "" := by
        intro hc
        apply hff
        simp [hc]
      exact genBody_isSome fenv _ p.company_domain domains h1

/-- Profile dictionary with an empty `last_name` component and a
one-word full name, the shape claim C9 predicts degrades to the
non-initial patterns. -/
def profEmptyLast : ProfileInfo :=
  { name := some "ana", first_name := some "ana", last_name := some "",
    company := some "acme", company_domain := none }

/-- C9 (counterexample to the degradation clause): with an empty last
name and a one-word full name the generator returns `[]` — it does not
emit the remaining non-initial patterns (such as `ana@example.org`)
that the claim says survive. -/
theorem generate_empty_component_yields_nothing :
    generate_email_patterns fmtNone profEmptyLast ["example.org"] = some [] ∧
    "ana@example.org" ∉ (generate_email_patterns fmtNone profEmptyLast ["example.org"]).getD [] := by
  exact ⟨rfl, by decide⟩

/-- C10: `extract_profile_info` returns the dictionary with exactly the
keys `name`, `first_name`, `last_name`, `company`, `company_domain`,
with the three inputs stored unchanged, `name` the space-joined full
name, and `company_domain` whatever the domain lookup produced; the
result is never the empty dictionary, so the callers' "could not
process profile information" branch is unreachable. -/
theorem extract_profile_info_exact (env : ResolverEnv) (f l c : String) :
    extract_profile_info env f l c =
      { name := some (f ++ " " ++ l), first_name := some f, last_name := some l,
        company := some c, company_domain := some (get_company_domain env c) } ∧
    isEmptyProfile (extract_profile_info env f l c) = false :=
  ⟨rfl, rfl⟩

/-- C3 (failing-input evaluation): for company `acme` with no DNS A
records on the direct guess and both searches empty, the resolver does
not return the direct guess `acme.com` — it returns the list of five
email-format names, so downstream stages do not receive a domain. -/
theorem get_company_domain_fallback_not_domain :
    get_company_domain resolverNoHit "acme" = .list common_formats_to_try ∧
    get_company_domain resolverNoHit "acme" ≠ .str "acme.com" :=
  ⟨rfl, by decide⟩

/-- The address the generator emits on the full-fallback path for
ana lee at an unresolvable company: its domain side is the Python
`repr` of the format list. -/
def badFallbackAddr : String :=
  "ana.lee@[\x27firstinitiallastname@\x27, \x27firstname.lastname@\x27, \x27firstname@\x27, \x27firstnamelastname@\x27, \x27firstname_lastname@\x27]"

/-- The extra-domains loop, written as one flat map of the seven
pattern shapes over the caller-supplied domains. -/
theorem extraPatterns_eq {first : String} (last : String) (h : first ≠ "")
    (ds : List String) :
    extraPatterns first last ds = some (ds.flatMap (fun d =>
      [first.take 1 ++ last ++ "@" ++ d,
       first ++ "@" ++ d,
       last ++ "@" ++ d,
       first ++ "." ++ last ++ "@" ++ d,
       first ++ "_" ++ last ++ "@" ++ d,
       first ++ last ++ "@" ++ d,
       first.take 1 ++ "." ++ last ++ "@" ++ d])) := by
  induction ds with
  | nil => rfl
  | cons d rest ih =>
    simp [extraPatterns, pyIdx0_of_ne_empty h, ih]

/-- C5 (amended): for a profile with non-empty lowered first and last
components, the generator appends, after whatever the company-domain
block produced, one fixed SEVEN-pattern block per caller-supplied extra
domain (first-initial+last, first-only, last-only, dotted, underscored,
concatenated, first-initial-dotted), in caller-supplied domain order.
The source has no dotted-reversed or concatenated-with-last-initial
extra pattern. -/
theorem extra_domains_seven_patterns (fenv : FmtEnv) (p : ProfileInfo)
    (nm f l : String) (cp : List String) (domains : List String)
    (hn : p.name = some nm) (hnm : nm ≠ "")
    (hf : p.first_name = some f) (hl : p.last_name = some l)
    (hf1 : pyLower f ≠ "") (hl1 : pyLower l ≠ "")
    (hcp : companyPatterns fenv (pyLower f) (pyLower l) p.company_domain = some cp) :
    generate_email_patterns fenv p domains =
      some (cp ++ domains.flatMap (fun d =>
        [(pyLower f).take 1 ++ pyLower l ++ "@" ++ d,
         pyLower f ++ "@" ++ d,
         pyLower l ++ "@" ++ d,
         pyLower f ++ "." ++ pyLower l ++ "@" ++ d,
         pyLower f ++ "_" ++ pyLower l ++ "@" ++ d,
         pyLower f ++ pyLower l ++ "@" ++ d,
         (pyLower f).take 1 ++ "." ++ pyLower l ++ "@" ++ d])) := by
  unfold generate_email_patterns
  rw [hn, hf, hl]
  simp only [Option.getD_some]
  rw [if_neg hnm, if_neg (by simp [hf1, hl1])]
  unfold genBody
  rw [hcp, extraPatterns_eq (pyLower l) hf1 domains]
  rfl

/-- Profile dict for Ana Lee with no company domain, as the C5 scenario
supplies it. -/
def profAnaLee : ProfileInfo :=
  { name := some "Ana Lee", first_name := some "Ana", last_name := some "Lee",
    company := some "acme", company_domain := none }

/-- Witness for the C5 theorem at Ana Lee with `extraDomains =
["example.org"]`; the four addresses of the scenario are all present. -/
theorem extra_domains_seven_patterns_witness :
    generate_email_patterns fmtNone profAnaLee ["example.org"] =
      some ["alee@example.org", "ana@example.org", "lee@example.org",
            "ana.lee@example.org", "ana_lee@example.org", "analee@example.org",
            "a.lee@example.org"] ∧
    "alee@example.org" ∈ (generate_email_patterns fmtNone profAnaLee ["example.org"]).getD [] ∧
    "ana@example.org" ∈ (generate_email_patterns fmtNone profAnaLee ["example.org"]).getD [] ∧
    "lee@example.org" ∈ (generate_email_patterns fmtNone profAnaLee ["example.org"]).getD [] ∧
    "ana.lee@example.org" ∈ (generate_email_patterns fmtNone profAnaLee ["example.org"]).getD [] :=
  ⟨extra_domains_seven_patterns fmtNone profAnaLee "Ana Lee" "Ana" "Lee" [] ["example.org"]
      rfl (by decide) rfl rfl (by decide) (by decide) rfl,
    by decide, by decide, by decide, by decide⟩

/-- C5 (counterexample to the eight-pattern clause): the extra-domain
sweep for Ana Lee at example.org contains neither the dotted-reversed
pattern `lee.ana@example.org` nor the concatenated-with-last-initial
pattern `anal@example.org` that the claimed eight-pattern superset
requires: only seven shapes are emitted. -/
theorem extra_domains_not_eight :
    generate_email_patterns fmtNone profAnaLee ["example.org"] =
      some ["alee@example.org", "ana@example.org", "lee@example.org",
            "ana.lee@example.org", "ana_lee@example.org", "analee@example.org",
            "a.lee@example.org"] ∧
    "lee.ana@example.org" ∉ (generate_email_patterns fmtNone profAnaLee ["example.org"]).getD [] ∧
    "anal@example.org" ∉ (generate_email_patterns fmtNone profAnaLee ["example.org"]).getD [] :=
  ⟨rfl, by decide, by decide⟩

/-- The company-domain block only depends on the format-search
environment through `find_email_format` on the stored value. -/
theorem companyPatterns_fmt_congr (fenv1 fenv2 : FmtEnv) (first last : String)
    (cdv : Option StrOrList)
    (h : ∀ v, cdv = some v → find_email_format fenv1 v = find_email_format fenv2 v) :
    companyPatterns fenv1 first last cdv = companyPatterns fenv2 first last cdv := by
  cases cdv with
  | none => rfl
  | some v =>
    have hv := h v rfl
    simp only [companyPatterns, hv]

/-- C4 (amended): `generate_email_patterns` is a deterministic pure
function of the profile, the extra domains and the outcome of the
embedded `find_email_format` web search: two invocations whose format
searches resolve identically on the stored company-domain value yield
identical ordered candidate lists. -/
theorem generate_deterministic_given_formats (fenv1 fenv2 : FmtEnv) (p : ProfileInfo)
    (domains : List String)
    (h : ∀ v, p.company_domain = some v →
      find_email_format fenv1 v = find_email_format fenv2 v) :
    generate_email_patterns fenv1 p domains = generate_email_patterns fenv2 p domains := by
  have key : ∀ a b, companyPatterns fenv1 a b p.company_domain =
      companyPatterns fenv2 a b p.company_domain :=
    fun a b => companyPatterns_fmt_congr fenv1 fenv2 a b p.company_domain h
  unfold generate_email_patterns genBody
  simp only [key]

/-- Witness for the C4 theorem: two distinct search environments whose
format inference agrees produce the same list. -/
theorem generate_deterministic_given_formats_witness :
    generate_email_patterns fmtFirstOnly (extract_profile_info resolverDnsHit "ana" "lee" "acme") [] =
      generate_email_patterns fmtFirstBoth (extract_profile_info resolverDnsHit "ana" "lee" "acme") [] :=
  generate_deterministic_given_formats fmtFirstOnly fmtFirstBoth _ []
    (fun v _ => by cases v <;> rfl)

set_option maxRecDepth 4096 in
/-- C4 (counterexample to the no-observable-effect clause): with the
profile and extra domains held fixed, the output of
`generate_email_patterns` still differs between two format-search
environments — the invocation performs the format web search itself, so
its result is not a function of the stated input triple alone. -/
theorem generate_depends_on_search_env :
    generate_email_patterns fmtFirstOnly (extract_profile_info resolverDnsHit "ana" "lee" "acme") [] ≠
      generate_email_patterns fmtLastOnly (extract_profile_info resolverDnsHit "ana" "lee" "acme") [] := by
  decide

set_option maxRecDepth 4096 in
/-- C1 (failing-input evaluation): on the path where domain resolution
fell back to its default, the pattern generator emits exactly one
address whose domain part is the stringified Python list of format
names — not the resolved domain `zzz.com` (nor any domain), violating
the invariant on that path. -/
theorem generator_fallback_emits_nondomain :
    generate_email_patterns fmtNone (extract_profile_info resolverNoHit "ana" "lee" "zzz") [] =
      some [badFallbackAddr] ∧
    domainPart badFallbackAddr = pyStr (.list common_formats_to_try) ∧
    domainPart badFallbackAddr ≠ "zzz.com" := by
  refine ⟨rfl, rfl, fun hc => ?_⟩
  have := congrArg String.length hc
  simp [String.length, domainPart, badFallbackAddr] at this

/-- C6 (amended): when the Method-2 MX query succeeds and returns no
records, `verify_email` immediately returns `(False, "No MX records")` —
a hard abort, not a continuation with lowered trust — and in particular
the outcome tier is never `High`.  Only a failed MX lookup (an
exception) is treated softly and lets the probe continue. -/
theorem no_mx_records_aborts (env : VerifyEnv) (email : String)
    (hmx : env.mxAnswer1 = some [])
    (hfmt : verifyReMatch email = true) :
    verify_email env email = (false, "No MX records") ∧
    (verify_email env email).2 ≠ "High" := by
  have h : verify_email env email = (false, "No MX records") := by
    simp [verify_email, hfmt, hmx]
  refine ⟨h, ?_⟩
  rw [h]
  decide

/-- Witness for the C6 theorem at a concrete environment and address. -/
theorem no_mx_records_aborts_witness :
    verify_email venvNoMxRecords "john@acme.com" = (false, "No MX records") ∧
    (verify_email venvNoMxRecords "john@acme.com").2 ≠ "High" :=
  no_mx_records_aborts venvNoMxRecords "john@acme.com" rfl rfl

/-- C6 (counterexample to the continuation clause): with identical SMTP
behaviour behind it (the server would answer 250), a successful MX query
with an empty answer ends verification at `(False, "No MX records")`,
while a failed MX query continues all the way to `(True, "High")` — so
the absence of records aborts the probe instead of merely lowering
trust while it continues. -/
theorem no_mx_records_vs_lookup_error :
    verify_email venvNoMxRecords "john@acme.com" = (false, "No MX records") ∧
    verify_email venvMxLookupErr "john@acme.com" = (true, "High") :=
  ⟨rfl, rfl⟩

/-- Session classification table written from the amended claim C2:
when the post-RCPT `quit()` returns, reply 250 gives High, 550 gives
Invalid and any other definite reply gives Medium; when the reply was
lost (an exception during `RCPT TO`, or a post-RCPT `quit()` that
raised) the outcome is the optimistic Low if the handler's own `quit()`
returns and the outer fall-through `(True, "Medium")` if it raises too;
a HELO (resp. MAIL FROM) failure gives `is_valid = False` with the
diagnostic reason `HELO failed` (resp. `MAIL FROM failed`) when the
handler's `quit()` returns, and the outer fall-through
`(True, "Medium")` when it raises. -/
def amendedSessionTable (env : VerifyEnv) : Bool × String :=
  if !env.heloOk then
    if env.heloQuitOk then (false, "HELO failed") else (true, "Medium")
  else if !env.mailOk then
    if env.mailQuitOk then (false, "MAIL FROM failed") else (true, "Medium")
  else
    match env.rcpt with
    | some c =>
      if env.rcptQuitOk then
        if c = 250 then (true, "High")
        else if c = 550 then (false, "Invalid")
        else (true, "Medium")
      else if env.rcptExcQuitOk then (true, "Low")
      else (true, "Medium")
    | none =>
      if env.rcptExcQuitOk then (true, "Low")
      else (true, "Medium")

/-- Connection-stage table written from the amended claim C2: when both
connection attempts fail the probe returns `(False, "Connection failed")`
(not a Low/Medium tier, though the reason is never the string
`Invalid`); an exception type the first connect handler does not name
falls through to the optimistic `(True, "Medium")`; otherwise the
session table applies. -/
def amendedVerifyTable (env : VerifyEnv) : Bool × String :=
  match env.connMx with
  | .ok => amendedSessionTable env
  | .caught =>
    if env.connDomain then amendedSessionTable env else (false, "Connection failed")
  | .uncaught => (true, "Medium")

/-- C2 (amended): for a syntactically valid address whose Method-2 MX
check passed and whose MX host resolution produced a usable host, the
probe's outcome is exactly the amended classification table: 250 gives
High, 550 gives Invalid and other definite replies give Medium, all
provided the post-RCPT `quit()` returns; a lost reply (RCPT exception,
or post-RCPT `quit()` raising) gives Low when the handler's `quit()`
returns and the outer fall-through `(True, "Medium")` otherwise; HELO
and MAIL FROM failures give `is_valid = False` with a diagnostic
reason when the handler's `quit()` returns — not a Low/Medium tier —
and `(True, "Medium")` when that `quit()` raises; a failure of both
connects gives `(False, "Connection failed")`.  No failure path ever
carries the tier string `Invalid`. -/
theorem verify_classification (env : VerifyEnv) (email m : String)
    (hfmt : verifyReMatch email = true)
    (hmx : env.mxAnswer1 ≠ some [])
    (hmxd : mxDomainOf env (emailDomain email) = some m)
    (hm : m ≠ "") :
    verify_email env email = amendedVerifyTable env := by
  have hstage : smtpStage env = amendedVerifyTable env := by
    cases env.connMx <;> rfl
  have hafter : afterMxCheck env (emailDomain email) = amendedVerifyTable env := by
    unfold afterMxCheck
    rw [hmxd]
    show (if m = "" then (false, "No MX domain") else smtpStage env) = amendedVerifyTable env
    rw [if_neg hm]
    exact hstage
  unfold verify_email
  rw [hfmt]
  cases ha : env.mxAnswer1 with
  | none => exact hafter
  | some ans =>
    cases ans with
    | nil => exact absurd ha hmx
    | cons a rest => simpa using hafter

/-- Like `venvSmtpOk` but HELO fails and the handler's `quit()` raises
in turn, escaping to the outer handler. -/
def venvHeloQuitFail : VerifyEnv :=
  { venvSmtpOk with heloOk := false, heloQuitOk := false }

/-- Witness for the C2 theorem at two concrete environments: one in
which the server replies 250, and one in which HELO fails and the
handler's `quit()` raises too, so the probe falls through to the
outer handler's `(True, "Medium")`. -/
theorem verify_classification_witness :
    verify_email venvSmtpOk "john@acme.com" = amendedVerifyTable venvSmtpOk ∧
    verify_email venvHeloQuitFail "john@acme.com" = amendedVerifyTable venvHeloQuitFail ∧
    verify_email venvHeloQuitFail "john@acme.com" = (true, "Medium") :=
  ⟨verify_classification venvSmtpOk "john@acme.com" "mail.acme.com" rfl (by decide) rfl
      (by decide),
    verify_classification venvHeloQuitFail "john@acme.com" "mail.acme.com" rfl (by decide)
      rfl (by decide),
    rfl⟩

/-- C2 (counterexample to the connection-failure clause): a
connection-level failure after the MX step yields
`(False, "Connection failed")` — a failed validity verdict with a
diagnostic reason, not the claimed Low or Medium tier (though indeed
not `Invalid`). -/
theorem conn_failure_not_low_medium :
    verify_email venvConnFail "john@acme.com" = (false, "Connection failed") ∧
    (verify_email venvConnFail "john@acme.com").2 ≠ "Low" ∧
    (verify_email venvConnFail "john@acme.com").2 ≠ "Medium" ∧
    (verify_email venvConnFail "john@acme.com").2 ≠ "Invalid" :=
  ⟨rfl, by decide, by decide, by decide⟩

/-- When the session returns a passing verdict, its tier is High,
Medium or Low. -/
theorem smtpSession_conf (env : VerifyEnv) (h : (smtpSession env).1 = true) :
    (smtpSession env).2 = "High" ∨ (smtpSession env).2 = "Medium" ∨
      (smtpSession env).2 = "Low" := by
  unfold smtpSession at h ⊢
  repeat' split at h
  all_goals simp_all

/-- When the SMTP stage returns a passing verdict, its tier is High,
Medium or Low. -/
theorem smtpStage_conf (env : VerifyEnv) (h : (smtpStage env).1 = true) :
    (smtpStage env).2 = "High" ∨ (smtpStage env).2 = "Medium" ∨
      (smtpStage env).2 = "Low" := by
  unfold smtpStage at h ⊢
  revert h
  cases env.connMx with
  | ok => exact fun h => smtpSession_conf env h
  | caught =>
    intro h
    by_cases hc : env.connDomain
    · rw [if_pos hc] at h ⊢
      exact smtpSession_conf env h
    · rw [if_neg hc] at h
      simp at h
  | uncaught =>
    intro _
    simp

/-- When the post-MX stage returns a passing verdict, its tier is High,
Medium or Low. -/
theorem afterMxCheck_conf (env : VerifyEnv) (d : String)
    (h : (afterMxCheck env d).1 = true) :
    (afterMxCheck env d).2 = "High" ∨ (afterMxCheck env d).2 = "Medium" ∨
      (afterMxCheck env d).2 = "Low" := by
  cases hm : mxDomainOf env d with
  | none =>
    simp only [afterMxCheck, hm] at h
    simp at h
  | some mxd =>
    simp only [afterMxCheck, hm] at h ⊢
    by_cases h0 : mxd = ""
    · rw [if_pos h0] at h
      simp at h
    · rw [if_neg h0] at h ⊢
      exact smtpStage_conf env h

/-- Every passing verdict of `verify_email` carries the tier High,
Medium or Low — never Invalid, never a diagnostic reason. -/
theorem verify_email_conf (env : VerifyEnv) (e : String)
    (h : (verify_email env e).1 = true) :
    (verify_email env e).2 = "High" ∨ (verify_email env e).2 = "Medium" ∨
      (verify_email env e).2 = "Low" := by
  by_cases hf : (!verifyReMatch e) = true
  · simp only [verify_email, if_pos hf] at h
    simp at h
  · cases ha : env.mxAnswer1 with
    | none =>
      simp only [verify_email, if_neg hf, ha] at h ⊢
      exact afterMxCheck_conf env _ h
    | some ans =>
      simp only [verify_email, if_neg hf, ha] at h ⊢
      by_cases he : ans.isEmpty
      · rw [if_pos he] at h
        simp at h
      · rw [if_neg he] at h ⊢
        exact afterMxCheck_conf env _ h

/-- The probe trace is exactly the input candidate list: `verify_email`
is consulted once per candidate, in order, with no retry. -/
theorem probeLoop_trace (vEnv : String → VerifyEnv) (L : List String) :
    (probeLoop vEnv L).2 = L := by
  induction L with
  | nil => rfl
  | cons c rest ih => simp [probeLoop, ih]

/-- Every kept entry of the probe loop records the passing verdict its
own probe returned. -/
theorem probeLoop_entry (vEnv : String → VerifyEnv) (L : List String) (x : EmailInfo)
    (hx : x ∈ (probeLoop vEnv L).1) :
    verify_email (vEnv x.email) x.email = (true, x.confidence) := by
  induction L with
  | nil => simp [probeLoop] at hx
  | cons c rest ih =>
    unfold probeLoop at hx
    rcases List.mem_append.mp hx with h1 | h1
    · by_cases hv : (verify_email (vEnv c) c).1
      · rw [if_pos hv] at h1
        simp at h1
        subst h1
        exact Prod.ext hv rfl
      · rw [if_neg hv] at h1
        simp at h1
    · exact ih h1

/-- An address appears among the kept entries exactly when it was a
candidate whose probe passed. -/
theorem probeLoop_mem_email (vEnv : String → VerifyEnv) (L : List String) (e : String) :
    e ∈ (probeLoop vEnv L).1.map (fun x => x.email) ↔
      (e ∈ L ∧ (verify_email (vEnv e) e).1 = true) := by
  induction L with
  | nil => simp [probeLoop]
  | cons c rest ih =>
    unfold probeLoop
    by_cases hv : (verify_email (vEnv c) c).1 = true
    · rw [if_pos hv]
      simp only [List.map_append, List.mem_append, List.map_cons, List.map_nil,
        List.mem_singleton]
      constructor
      · intro h
        rcases h with h | h
        · rw [h]
          exact ⟨List.mem_cons_self c rest, hv⟩
        · have := ih.mp h
          exact ⟨List.mem_cons_of_mem c this.1, this.2⟩
      · rintro ⟨hmem, hval⟩
        rcases List.mem_cons.mp hmem with h | h
        · exact Or.inl h
        · exact Or.inr (ih.mpr ⟨h, hval⟩)
    · rw [if_neg hv]
      simp only [List.nil_append]
      rw [ih]
      constructor
      · rintro ⟨h, hval⟩
        exact ⟨List.mem_cons_of_mem c h, hval⟩
      · rintro ⟨hmem, hval⟩
        rcases List.mem_cons.mp hmem with h | h
        · subst h
          exact absurd hval hv
        · exact ⟨h, hval⟩

/-- The sort key takes only the values 0, 1 and 2. -/
theorem tierKey_range (c : String) : tierKey c = 0 ∨ tierKey c = 1 ∨ tierKey c = 2 := by
  unfold tierKey
  by_cases h1 : c = "High"
  · simp [h1]
  · by_cases h2 : c = "Medium" <;> simp [h1, h2]

/-- Key 0 is exactly the High tier. -/
theorem tierKey_eq_zero {c : String} (h : tierKey c = 0) : c = "High" := by
  unfold tierKey at h
  by_cases h1 : c = "High"
  · exact h1
  · exfalso
    rw [if_neg h1] at h
    by_cases h2 : c = "Medium"
    · rw [if_pos h2] at h
      exact absurd h (by decide)
    · rw [if_neg h2] at h
      exact absurd h (by decide)

/-- Key 1 is exactly the Medium tier. -/
theorem tierKey_eq_one {c : String} (h : tierKey c = 1) : c = "Medium" := by
  unfold tierKey at h
  by_cases h1 : c = "High"
  · rw [if_pos h1] at h
    exact absurd h (by decide)
  · rw [if_neg h1] at h
    by_cases h2 : c = "Medium"
    · exact h2
    · rw [if_neg h2] at h
      exact absurd h (by decide)

/-- Stable sorting does not change membership. -/
theorem mem_pySortByTier (l : List EmailInfo) (x : EmailInfo) :
    x ∈ pySortByTier l ↔ x ∈ l := by
  unfold pySortByTier
  simp only [List.mem_append, List.mem_filter]
  constructor
  · rintro ((⟨h, _⟩ | ⟨h, _⟩) | ⟨h, _⟩) <;> exact h
  · intro h
    rcases tierKey_range x.confidence with hk | hk | hk
    · exact Or.inl (Or.inl ⟨h, by simp [hk]⟩)
    · exact Or.inl (Or.inr ⟨h, by simp [hk]⟩)
    · exact Or.inr ⟨h, by simp [hk]⟩

/-- C7 (amended): the orchestrator consults `verify_email` exactly once
per generated candidate, in generation order and with no retry (the
probe trace is the candidate list itself), and the returned list
contains an address iff it was generated and its single probe returned
`is_valid = True` — candidates whose probe failed (connection failure,
missing MX, bad format, or reply 550) are discarded rather than kept at
a lower confidence. -/
theorem probe_once_valid_kept (rEnv : ResolverEnv) (fenv : FmtEnv)
    (vEnv : String → VerifyEnv) (fn ln co : String) (add : Option (List String))
    (possible : List String) (out : List EmailInfo) (e : String)
    (hc : find_emails_candidates rEnv fenv fn ln co add = some possible)
    (ho : find_emails rEnv fenv vEnv fn ln co add = some out) :
    find_emails_probed rEnv fenv vEnv fn ln co add = some possible ∧
    (e ∈ out.map (fun x => x.email) ↔
      (e ∈ possible ∧ (verify_email (vEnv e) e).1 = true)) := by
  have hpre : find_emails_pre rEnv fenv vEnv fn ln co add =
      some (probeLoop vEnv possible).1 := by
    unfold find_emails_pre
    rw [hc]
    rfl
  have hout : out = pySortByTier (probeLoop vEnv possible).1 := by
    unfold find_emails at ho
    rw [hpre] at ho
    simpa using ho.symm
  constructor
  · unfold find_emails_probed
    rw [hc]
    simp [probeLoop_trace]
  · rw [hout]
    constructor
    · intro hmem
      obtain ⟨x, hx, hxe⟩ := List.mem_map.mp hmem
      have hx' := (mem_pySortByTier _ x).mp hx
      exact (probeLoop_mem_email vEnv possible e).mp (List.mem_map.mpr ⟨x, hx', hxe⟩)
    · intro hmem
      obtain ⟨x, hx, hxe⟩ := List.mem_map.mp ((probeLoop_mem_email vEnv possible e).mpr hmem)
      exact List.mem_map.mpr ⟨x, (mem_pySortByTier _ x).mpr hx, hxe⟩

/-- The candidate list generated for ana lee at acme with a DNS-resolved
domain and no format-search match. -/
def candidatesAcme : List String :=
  ["alee@acme.com", "ana.lee@acme.com", "ana@acme.com", "analee@acme.com",
   "ana_lee@acme.com"]

/-- The sorted output of `find_emails` under the mixed verification
environments `vMix`. -/
def outMix : List EmailInfo :=
  [{ email := "ana.lee@acme.com", confidence := "High", source := "pattern_matching" },
   { email := "ana@acme.com", confidence := "Medium", source := "pattern_matching" },
   { email := "ana_lee@acme.com", confidence := "Medium", source := "pattern_matching" },
   { email := "alee@acme.com", confidence := "Low", source := "pattern_matching" }]

/-- The kept entries of the probe loop under `vMix` before the sort. -/
def preMix : List EmailInfo :=
  [{ email := "alee@acme.com", confidence := "Low", source := "pattern_matching" },
   { email := "ana.lee@acme.com", confidence := "High", source := "pattern_matching" },
   { email := "ana@acme.com", confidence := "Medium", source := "pattern_matching" },
   { email := "ana_lee@acme.com", confidence := "Medium", source := "pattern_matching" }]

/-- Witness for the C7 theorem at the mixed-outcome run. -/
theorem probe_once_valid_kept_witness :
    find_emails_probed resolverDnsHit fmtNone vMix "ana" "lee" "acme" none =
      some candidatesAcme ∧
    ("ana.lee@acme.com" ∈ outMix.map (fun x => x.email) ↔
      ("ana.lee@acme.com" ∈ candidatesAcme ∧
        (verify_email (vMix "ana.lee@acme.com") "ana.lee@acme.com").1 = true)) :=
  probe_once_valid_kept resolverDnsHit fmtNone vMix "ana" "lee" "acme" none
    candidatesAcme outMix "ana.lee@acme.com" rfl rfl

/-- C7 (counterexample to the no-discard clause): `analee@acme.com` is
generated, its probe fails at the connection step, and it is absent
from the returned list — a candidate whose probe failed is discarded,
not kept with a lower-confidence outcome. -/
theorem failed_probe_discarded :
    find_emails_candidates resolverDnsHit fmtNone "ana" "lee" "acme" none =
      some candidatesAcme ∧
    "analee@acme.com" ∈ candidatesAcme ∧
    find_emails resolverDnsHit fmtNone vMix "ana" "lee" "acme" none = some outMix ∧
    "analee@acme.com" ∉ outMix.map (fun x => x.email) :=
  ⟨rfl, by decide, rfl, by decide⟩

/-- Rank of a confidence tier in the order the spec declares:
High > Medium > Low > Invalid. -/
def claimTierRank (c : String) : Nat :=
  if c = "High" then 3 else if c = "Medium" then 2 else if c = "Low" then 1 else 0

/-- Filtering one sort bucket by a confidence value keeps everything
(when the value belongs to that bucket) or nothing (otherwise). -/
theorem filter_conf_bucket (l : List EmailInfo) (t : String) (i : Nat) :
    List.filter (fun x => x.confidence == t)
      (List.filter (fun x => tierKey x.confidence == i) l) =
    if tierKey t = i then List.filter (fun x => x.confidence == t) l else [] := by
  rw [List.filter_filter]
  by_cases h : tierKey t = i
  · rw [if_pos h]
    apply List.filter_congr
    intro a _
    by_cases hc : a.confidence = t
    · simp [hc, h]
    · simp [hc]
  · rw [if_neg h]
    rw [List.filter_eq_nil_iff]
    intro a _
    by_cases hc : a.confidence = t
    · simp [hc]
      exact h
    · simp [hc]

/-- The stable sort preserves, for every tier value, the relative order
of the entries carrying that tier. -/
theorem pySortByTier_stable (l : List EmailInfo) (t : String) :
    (pySortByTier l).filter (fun x => x.confidence == t) =
      l.filter (fun x => x.confidence == t) := by
  unfold pySortByTier
  rw [List.filter_append, List.filter_append, filter_conf_bucket, filter_conf_bucket,
    filter_conf_bucket]
  rcases tierKey_range t with h | h | h <;> simp [h]

/-- The sorted list is non-increasing in the spec's tier order, provided
every entry carries one of the three passing tiers. -/
theorem pySortByTier_pairwise (l : List EmailInfo)
    (hl : ∀ x ∈ l, x.confidence = "High" ∨ x.confidence = "Medium" ∨
      x.confidence = "Low") :
    List.Pairwise (fun a b => claimTierRank b.confidence ≤ claimTierRank a.confidence)
      (pySortByTier l) := by
  have hA : ∀ x ∈ List.filter (fun x => tierKey x.confidence == 0) l,
      claimTierRank x.confidence = 3 := by
    intro x hx
    have h : tierKey x.confidence = 0 := by simpa using (List.mem_filter.mp hx).2
    rw [tierKey_eq_zero h]
    decide
  have hB : ∀ x ∈ List.filter (fun x => tierKey x.confidence == 1) l,
      claimTierRank x.confidence = 2 := by
    intro x hx
    have h : tierKey x.confidence = 1 := by simpa using (List.mem_filter.mp hx).2
    rw [tierKey_eq_one h]
    decide
  have hC : ∀ x ∈ List.filter (fun x => tierKey x.confidence == 2) l,
      claimTierRank x.confidence = 1 := by
    intro x hx
    have h : tierKey x.confidence = 2 := by simpa using (List.mem_filter.mp hx).2
    rcases hl x (List.mem_filter.mp hx).1 with hh | hh | hh
    · rw [hh] at h
      exact absurd h (by decide)
    · rw [hh] at h
      exact absurd h (by decide)
    · rw [hh]
      decide
  unfold pySortByTier
  rw [List.pairwise_append]
  refine ⟨?_, ?_, ?_⟩
  · rw [List.pairwise_append]
    refine ⟨?_, ?_, ?_⟩
    · exact List.pairwise_of_forall_mem_list
        (fun a ha b hb => by rw [hA a ha, hA b hb])
    · exact List.pairwise_of_forall_mem_list
        (fun a ha b hb => by rw [hB a ha, hB b hb])
    · intro a ha b hb
      rw [hA a ha, hB b hb]
      decide
  · exact List.pairwise_of_forall_mem_list
      (fun a ha b hb => by rw [hC a ha, hC b hb])
  · intro a ha b hb
    rcases List.mem_append.mp ha with ha1 | ha1
    · rw [hA a ha1, hC b hb]
      decide
    · rw [hB a ha1, hC b hb]
      decide

/-- C8: the list `find_emails` returns is ranked by confidence tier in
the total order High > Medium > Low > Invalid — its tier sequence is
non-increasing — and entries of equal tier keep the relative order they
had before the sort (Python's stable sort), which is generation
order. -/
theorem ranked_non_increasing_stable (rEnv : ResolverEnv) (fenv : FmtEnv)
    (vEnv : String → VerifyEnv) (fn ln co : String) (add : Option (List String))
    (t : String) (out pre : List EmailInfo)
    (ho : find_emails rEnv fenv vEnv fn ln co add = some out)
    (hp : find_emails_pre rEnv fenv vEnv fn ln co add = some pre) :
    List.Pairwise (fun a b => claimTierRank b.confidence ≤ claimTierRank a.confidence)
      out ∧
    out.filter (fun x => x.confidence == t) = pre.filter (fun x => x.confidence == t) := by
  have hout : out = pySortByTier pre := by
    unfold find_emails at ho
    rw [hp] at ho
    simpa using ho.symm
  have hconf : ∀ x ∈ pre, x.confidence = "High" ∨ x.confidence = "Medium" ∨
      x.confidence = "Low" := by
    unfold find_emails_pre at hp
    obtain ⟨possible, hcand, hpre⟩ := Option.map_eq_some'.mp hp
    intro x hx
    rw [← hpre] at hx
    have hv := probeLoop_entry vEnv possible x hx
    have h1 : (verify_email (vEnv x.email) x.email).1 = true := by rw [hv]
    have h2 := verify_email_conf (vEnv x.email) x.email h1
    rwa [hv] at h2
  subst hout
  exact ⟨pySortByTier_pairwise pre hconf, pySortByTier_stable pre t⟩

/-- Witness for the C8 theorem at the mixed-outcome run, checking the
stability clause at the tier value Medium. -/
theorem ranked_non_increasing_stable_witness :
    List.Pairwise (fun a b => claimTierRank b.confidence ≤ claimTierRank a.confidence)
      outMix ∧
    outMix.filter (fun x => x.confidence == "Medium") =
      preMix.filter (fun x => x.confidence == "Medium") :=
  ranked_non_increasing_stable resolverDnsHit fmtNone vMix "ana" "lee" "acme" none
    "Medium" outMix preMix rfl rfl

end EmailFinder
